import Mathlib

/-!
Verification of the element-resolution engine of the testingApp repository.

The Python sources under src/ are shallowly embedded: pure functions become
Lean functions on `String`/`Nat`/`List`, the mutable cache dictionary becomes
an association list threaded through the operations, and the external
collaborators (the Playwright DOM probe and the AI transport) become explicit
function-valued fields of an environment record.  Machine-level details that
the code relies on (Python string methods, MD5 from `hashlib`, `dict`
semantics, `abc` abstract-class instantiation checks) are modelled explicitly
below, next to the definitions that use them.
-/

/-! ## Python string primitives

The Python string methods the code uses (`in`, `lower`, `strip`, `replace`,
`startswith`) are implemented here by structural recursion over the string's
characters, so that every definition evaluates by kernel reduction.  `lower`
uses the ASCII case mapping, which coincides with Python's on the ASCII
strings the code handles; `strip` uses Python's ASCII whitespace set. -/

/-- Python `str.strip()` whitespace: space, tab, newline, carriage return,
vertical tab, form feed. -/
def pyWhitespaceChar (c : Char) : Bool :=
  [32, 9, 10, 13, 11, 12].contains c.toNat

def lowerChar (c : Char) : Char :=
  if 65 <= c.toNat && c.toNat <= 90 then Char.ofNat (c.toNat + 32) else c

/-- Python `str.lower()` (ASCII range). -/
def pyLower (s : String) : String :=
  String.mk (s.data.map lowerChar)

/-- Python `str.strip()`. -/
def pyStrip (s : String) : String :=
  String.mk (((s.data.dropWhile pyWhitespaceChar).reverse.dropWhile
    pyWhitespaceChar).reverse)

def isPrefixCharList : List Char → List Char → Bool
  | [], _ => true
  | _ :: _, [] => false
  | p :: ps, c :: cs => p == c && isPrefixCharList ps cs

def hasSubCharList (pat : List Char) : List Char → Bool
  | [] => pat.isEmpty
  | c :: cs => isPrefixCharList pat (c :: cs) || hasSubCharList pat cs

/-- Python `pat in s` (substring containment). -/
def pyContains (s pat : String) : Bool :=
  hasSubCharList pat.data s.data

/-- Python `str.startswith(pre)`. -/
def pyStartsWith (s pre : String) : Bool :=
  isPrefixCharList pre.data s.data

/-- Replace every non-overlapping occurrence of `pat`, left to right.  The
fuel argument (instantiated with the string length, an upper bound on the
number of steps) keeps the recursion structural. -/
def replaceFuel (pat rep : List Char) : Nat → List Char → List Char
  | _, [] => []
  | 0, l => l
  | fuel + 1, c :: cs =>
    if isPrefixCharList pat (c :: cs) && !pat.isEmpty then
      rep ++ replaceFuel pat rep fuel (List.drop (pat.length - 1) cs)
    else c :: replaceFuel pat rep fuel cs

/-- Python `s.replace(pat, rep)` for nonempty `pat` (the only form the code
uses). -/
def pyReplace (s pat rep : String) : String :=
  String.mk (replaceFuel pat.data rep.data s.data.length s.data)

/-- Python truthiness of an optional string: `None` and `""` are falsy. -/
def pyTruthy : Option String → Bool
  | Option.none => false
  | some s => !(s == "")

/-! ## XPathHelper (src/src/xpath_helpers.py) -/

namespace XPathHelper

/-- `element_by_text` (xpath_helpers.py line 46): any element containing the text. -/
def element_by_text (text : String) : String :=
  "//*[contains(text(),'" ++ text ++ "')]"

/-- `generate_xpath_variations` (xpath_helpers.py lines 71-108), translated
clause by clause: the `button`, `link` and `input`/`field` blocks each extend
the list when the (lower-cased) description contains the keyword, and the
generic contains-text selector is always appended last.  Note the source's
`text.replace(...)` calls are case-sensitive while the containment checks are
on `text.lower()`; this is preserved. -/
def generate_xpath_variations (element_description : String) : List String :=
  let text := pyStrip element_description
  let buttonVars : List String :=
    if pyContains (pyLower text) "button" then
      let button_text := pyStrip (pyReplace text "button" "")
      [ "//button[text()='" ++ button_text ++ "']",
        "//button[contains(text(),'" ++ button_text ++ "')]",
        "//input[@type='button' and @value='" ++ button_text ++ "']",
        "//input[@type='submit' and @value='" ++ button_text ++ "']" ]
    else []
  let linkVars : List String :=
    if pyContains (pyLower text) "link" then
      let link_text := pyStrip (pyReplace text "link" "")
      [ "//a[text()='" ++ link_text ++ "']",
        "//a[contains(text(),'" ++ link_text ++ "')]" ]
    else []
  let inputVars : List String :=
    if pyContains (pyLower text) "input" || pyContains (pyLower text) "field" then
      let field_name := pyStrip (pyReplace (pyReplace text "input" "") "field" "")
      [ "//input[@placeholder='" ++ field_name ++ "']",
        "//input[@name='" ++ field_name ++ "']",
        "//input[@id='" ++ field_name ++ "']",
        "//input[@id=//label[text()='" ++ field_name ++ "']/@for]" ]
    else []
  buttonVars ++ linkVars ++ inputVars ++ [element_by_text text]

end XPathHelper

/-! ## MD5 (`hashlib.md5(...).hexdigest()`), over `Nat`

The cache key uses `hashlib.md5`.  The algorithm (RFC 1321) is implemented
here on lists of byte values, all arithmetic carried out in `Nat` and reduced
`% 2^32` where the reference algorithm uses 32-bit words. -/

namespace MD5

def M32 : Nat := 4294967296

def rotl32 (x n : Nat) : Nat :=
  ((x <<< n) ||| (x >>> (32 - n))) % M32

/-- Per-round left-rotation amounts. -/
def shifts : List Nat :=
  [7, 12, 17, 22, 7, 12, 17, 22, 7, 12, 17, 22, 7, 12, 17, 22,
   5, 9, 14, 20, 5, 9, 14, 20, 5, 9, 14, 20, 5, 9, 14, 20,
   4, 11, 16, 23, 4, 11, 16, 23, 4, 11, 16, 23, 4, 11, 16, 23,
   6, 10, 15, 21, 6, 10, 15, 21, 6, 10, 15, 21, 6, 10, 15, 21]

/-- The binary integer parts of the sines of integers (the standard K table). -/
def sines : List Nat :=
  [0xd76aa478, 0xe8c7b756, 0x242070db, 0xc1bdceee,
   0xf57c0faf, 0x4787c62a, 0xa8304613, 0xfd469501,
   0x698098d8, 0x8b44f7af, 0xffff5bb1, 0x895cd7be,
   0x6b901122, 0xfd987193, 0xa679438e, 0x49b40821,
   0xf61e2562, 0xc040b340, 0x265e5a51, 0xe9b6c7aa,
   0xd62f105d, 0x02441453, 0xd8a1e681, 0xe7d3fbc8,
   0x21e1cde6, 0xc33707d6, 0xf4d50d87, 0x455a14ed,
   0xa9e3e905, 0xfcefa3f8, 0x676f02d9, 0x8d2a4c8a,
   0xfffa3942, 0x8771f681, 0x6d9d6122, 0xfde5380c,
   0xa4beea44, 0x4bdecfa9, 0xf6bb4b60, 0xbebfbc70,
   0x289b7ec6, 0xeaa127fa, 0xd4ef3085, 0x04881d05,
   0xd9d4d039, 0xe6db99e5, 0x1fa27cf8, 0xc4ac5665,
   0xf4292244, 0x432aff97, 0xab9423a7, 0xfc93a039,
   0x655b59c3, 0x8f0ccc92, 0xffeff47d, 0x85845dd1,
   0x6fa87e4f, 0xfe2ce6e0, 0xa3014314, 0x4e0811a1,
   0xf7537e82, 0xbd3af235, 0x2ad7d2bb, 0xeb86d391]

/-- Little-endian 32-bit words of one 64-byte chunk. -/
def wordsOfChunk (chunk : List Nat) : List Nat :=
  (List.range 16).map fun j =>
    chunk.getD (4 * j) 0 + chunk.getD (4 * j + 1) 0 * 256 +
    chunk.getD (4 * j + 2) 0 * 65536 + chunk.getD (4 * j + 3) 0 * 16777216

def not32 (x : Nat) : Nat := 4294967295 - x

def round (M : List Nat) (st : Nat × Nat × Nat × Nat) (i : Nat) :
    Nat × Nat × Nat × Nat :=
  let A := st.1
  let B := st.2.1
  let C := st.2.2.1
  let D := st.2.2.2
  let F :=
    if i < 16 then (B &&& C) ||| (not32 B &&& D)
    else if i < 32 then (D &&& B) ||| (not32 D &&& C)
    else if i < 48 then B ^^^ C ^^^ D
    else C ^^^ (B ||| not32 D)
  let g :=
    if i < 16 then i
    else if i < 32 then (5 * i + 1) % 16
    else if i < 48 then (3 * i + 5) % 16
    else (7 * i) % 16
  let F2 := (F + A + sines.getD i 0 + M.getD g 0) % M32
  (D, (B + rotl32 F2 (shifts.getD i 0)) % M32, B, C)

def processChunk (st : Nat × Nat × Nat × Nat) (chunk : List Nat) :
    Nat × Nat × Nat × Nat :=
  let M := wordsOfChunk chunk
  let r := (List.range 64).foldl (round M) st
  ((st.1 + r.1) % M32, (st.2.1 + r.2.1) % M32,
   (st.2.2.1 + r.2.2.1) % M32, (st.2.2.2 + r.2.2.2) % M32)

/-- RFC 1321 padding: append `0x80`, zero-fill to 56 mod 64, then the original
bit length as a little-endian 64-bit quantity. -/
def pad (msg : List Nat) : List Nat :=
  let len := msg.length
  let zeros := (119 - len % 64) % 64
  msg ++ [128] ++ List.replicate zeros 0 ++
    (List.range 8).map fun i => (((8 * len) % 18446744073709551616) >>> (8 * i)) % 256

def digestBytes (msg : List Nat) : List Nat :=
  let padded := pad msg
  let chunks := (List.range (padded.length / 64)).map fun i =>
    (padded.drop (64 * i)).take 64
  let r := chunks.foldl processChunk (0x67452301, 0xefcdab89, 0x98badcfe, 0x10325476)
  ([r.1, r.2.1, r.2.2.1, r.2.2.2].map fun w =>
    (List.range 4).map fun i => (w >>> (8 * i)) % 256).flatten

def hexChar (n : Nat) : Char :=
  if n < 10 then Char.ofNat (48 + n) else Char.ofNat (87 + n)

def byteHex (b : Nat) : String :=
  String.mk [hexChar (b / 16), hexChar (b % 16)]

/-- `hashlib.md5(bytes).hexdigest()`. -/
def hexdigest (msg : List Nat) : String :=
  String.join ((digestBytes msg).map byteHex)

end MD5

/-- UTF-8 encoding of one code point, as byte values (Python `str.encode()`). -/
def utf8EncodeNat (n : Nat) : List Nat :=
  if n < 128 then [n]
  else if n < 2048 then [192 ||| (n >>> 6), 128 ||| (n &&& 63)]
  else if n < 65536 then
    [224 ||| (n >>> 12), 128 ||| ((n >>> 6) &&& 63), 128 ||| (n &&& 63)]
  else
    [240 ||| (n >>> 18), 128 ||| ((n >>> 12) &&& 63),
     128 ||| ((n >>> 6) &&& 63), 128 ||| (n &&& 63)]

/-- The UTF-8 bytes of a string (Python `str.encode()`). -/
def strBytes (s : String) : List Nat :=
  (s.data.map fun c => utf8EncodeNat c.toNat).flatten

/-! ## Python `dict` as an association list

The cache table `self.cache : Dict[str, ...]` is embedded as an association
list: `dictGet` is `dict.get` (first matching key), `dictSet` is
`d[k] = v` (overwrite in place, else append). -/

def dictGet {α : Type} (m : List (String × α)) (k : String) : Option α :=
  (m.find? fun p => p.1 == k).map fun p => p.2

def dictSet {α : Type} : List (String × α) → String → α → List (String × α)
  | [], k, v => [(k, v)]
  | p :: t, k, v => if p.1 == k then (k, v) :: t else p :: dictSet t k v

/-! ## ElementCache (src/src/element_cache.py) -/

/-- One value of `self.cache` (the entry dict built in `ElementCache.set`,
lines 41-47).  `metadata` values are opaque to the code; they are embedded as
string pairs. -/
structure CacheEntry where
  selector : String
  selector_type : String
  url : String
  element_description : String
  metadata : List (String × String)
deriving Repr, DecidableEq

abbrev CacheTable := List (String × CacheEntry)

namespace ElementCache

/-- `_generate_key` (element_cache.py lines 19-22): the MD5 hex digest of
`f"{url}::{element_description.lower().strip()}"` encoded as UTF-8. -/
def key_material (url element_description : String) : String :=
  url ++ "::" ++ pyStrip (pyLower element_description)

def generate_key (url element_description : String) : String :=
  MD5.hexdigest (strBytes (key_material url element_description))

/-- `get` (element_cache.py lines 24-34): a plain dictionary lookup; a missing
key is the `None` outcome, never an exception. -/
def get (cache : CacheTable) (url element_description : String) :
    Option CacheEntry :=
  dictGet cache (generate_key url element_description)

/-- How a load of the backing file can go (element_cache.py lines 54-66):
the file is absent, the file is present but unreadable or not valid JSON
(any exception), or it parses to a table. -/
inductive BackingLoad
  | missing
  | corrupt
  | ok (table : CacheTable)

/-- `load_cache`: the `try` body reads the table when the file exists; the
missing-file branch and the `except` branch both leave the cache empty. -/
def load_cache : BackingLoad → CacheTable
  | BackingLoad.missing => []
  | BackingLoad.corrupt => []
  | BackingLoad.ok table => table

/-- `save_cache` (element_cache.py lines 68-75): the write is attempted and
any exception is swallowed (logged only).  `persistOk` says whether the write
succeeded; the in-memory table is returned unchanged either way, and the
function never raises. -/
def save_cache (cache : CacheTable) (persistOk : Bool) : CacheTable × Bool :=
  (cache, persistOk)

/-- `set` (element_cache.py lines 36-52): build the entry, overwrite the key,
persist.  `persistOk` is the fate of the `save_cache` write. -/
def set (cache : CacheTable) (url element_description selector : String)
    (selector_type : String := "xpath")
    (metadata : Option (List (String × String)) := Option.none)
    (persistOk : Bool := true) : CacheTable :=
  let entry : CacheEntry :=
    { selector := selector, selector_type := selector_type, url := url,
      element_description := element_description,
      metadata := metadata.getD [] }
  (save_cache (dictSet cache (generate_key url element_description) entry)
    persistOk).1

/-- `clear_cache` (element_cache.py lines 77-81). -/
def clear_cache (_cache : CacheTable) (persistOk : Bool := true) : CacheTable :=
  (save_cache [] persistOk).1

end ElementCache

/-! ## AI client layer (src/src/ai_client.py) -/

/-- One entry of the `selectors` list of an analysis result. -/
structure SelectorCandidate where
  selector : String
  selType : String
  confidence : ℚ
  reasoning : String
deriving Repr, DecidableEq, Inhabited

/-- The analysis-result dict every `analyze_dom` and
`find_element_selector` returns. -/
structure AIResult where
  selectors : List SelectorCandidate
  best_selector : Option String
  success : Bool
  error : Option String
deriving Repr, DecidableEq

/-- The failure record the `except` arms build (ai_client.py e.g. lines
104-111): empty selectors, no best selector, success false. -/
def aiFailure (msg : String) : AIResult :=
  { selectors := [], best_selector := Option.none, success := false,
    error := some msg }

namespace AzureOpenAIClient

/-- The attribute names `AzureOpenAIClient.__init__` (ai_client.py lines
33-39) stores on the instance: `client` and `deployment`.  No `model`
attribute is ever set. -/
def init_attr_names : List String := ["client", "deployment"]

/-- The class body of `AzureOpenAIClient` defines `analyze_dom` twice (lines
41-111 and lines 113-183); in a Python class body the later definition is the
one bound, so this embeds the second one.  Its `try` block evaluates
`self.model` while building the chat-completions request; attribute lookup on
the instance is a lookup in `attrs`.  When it misses, the `AttributeError` is
caught by the generic `except Exception` arm, which returns the failure
record.  `backend` stands for the chat-completions transport plus the
`json.loads` of its reply (both external); it is consulted only when the
`model` attribute exists. -/
def analyze_dom (attrs : List String)
    (backend : String → String → String → Except String AIResult)
    (html_content element_description url : String) : AIResult :=
  if attrs.contains "model" then
    match backend html_content element_description url with
    | Except.ok result => result
    | Except.error msg => aiFailure msg
  else
    aiFailure "'AzureOpenAIClient' object has no attribute 'model'"

end AzureOpenAIClient

/-! ### Abstract-class instantiation (Python `abc`)

`AIClient` declares `analyze_dom` abstract (ai_client.py lines 13-19).
Python refuses to instantiate a subclass that leaves an abstract method
unimplemented, raising `TypeError` from the constructor call.  The method
lists below are read off the class bodies in the source. -/

namespace AIClientABC

/-- Abstract methods of the `AIClient` base (ai_client.py lines 16-19). -/
def abstract_methods : List String := ["analyze_dom"]

/-- Methods the `OpenAIClient` class body defines (lines 22-27): only
`__init__` — it never overrides `analyze_dom`. -/
def openai_client_methods : List String := ["__init__"]

/-- Methods the `AzureOpenAIClient` class body defines (lines 30-183). -/
def azure_client_methods : List String := ["__init__", "analyze_dom"]

/-- Methods the `AnthropicClient` class body defines (lines 186-263). -/
def anthropic_client_methods : List String := ["__init__", "analyze_dom"]

/-- A class can be instantiated iff it implements every abstract method. -/
def instantiable (methods : List String) : Bool :=
  abstract_methods.all fun m => methods.contains m

end AIClientABC

/-! ### Settings (src/config.py) -/

/-- The fields of `Settings` the AI layer consults, with the defaults from
config.py lines 8-18. -/
structure Settings where
  ai_provider : String := "openai"
  openai_api_key : Option String := Option.none
  anthropic_api_key : Option String := Option.none
  openai_model : String := "gpt-4"
  anthropic_model : String := "claude-3-sonnet-20240229"
  azure_openai_endpoint : Option String := Option.none
  azure_openai_api_key : Option String := Option.none
  azure_openai_deployment : Option String := Option.none
  azure_openai_api_version : String := "2024-02-01"

def defaultSettings : Settings := {}

/-- The client classes `_initialize_client` can pick. -/
inductive ClientChoice
  | openai
  | azure_openai
  | anthropic
deriving Repr, DecidableEq

namespace AIElementDetector

/-- `_initialize_client` (ai_client.py lines 272-292), with Python's
constructor-time abstract-method check made explicit: after the configuration
checks, `return OpenAIClient(...)` raises `TypeError` when the class still
has unimplemented abstract methods. -/
def initialize_client (s : Settings) : Except String ClientChoice :=
  if s.ai_provider == "openai" then
    if !pyTruthy s.openai_api_key then
      Except.error "ValueError: OpenAI API key not configured"
    else if AIClientABC.instantiable AIClientABC.openai_client_methods then
      Except.ok ClientChoice.openai
    else
      Except.error "TypeError: Can't instantiate abstract class OpenAIClient with abstract method analyze_dom"
  else if s.ai_provider == "azure_openai" then
    if !pyTruthy s.azure_openai_api_key || !pyTruthy s.azure_openai_endpoint
        || !pyTruthy s.azure_openai_deployment then
      Except.error "ValueError: Azure OpenAI configuration incomplete. Need: api_key, endpoint, deployment"
    else if AIClientABC.instantiable AIClientABC.azure_client_methods then
      Except.ok ClientChoice.azure_openai
    else
      Except.error "TypeError: Can't instantiate abstract class AzureOpenAIClient"
  else if s.ai_provider == "anthropic" then
    if !pyTruthy s.anthropic_api_key then
      Except.error "ValueError: Anthropic API key not configured"
    else if AIClientABC.instantiable AIClientABC.anthropic_client_methods then
      Except.ok ClientChoice.anthropic
    else
      Except.error "TypeError: Can't instantiate abstract class AnthropicClient"
  else
    Except.error ("ValueError: Unsupported AI provider: " ++ s.ai_provider)

end AIElementDetector

namespace AIElementDetector

/-- `_add_fallback_selectors` (ai_client.py lines 329-351): append one
confidence-0.5 candidate per heuristic variation, and when `best_selector` is
still falsy and the fallback list is nonempty, promote the first fallback to
`best_selector` and force `success` to true. -/
def add_fallback_selectors (result : AIResult) (element_description : String) :
    AIResult :=
  let fallback_list : List SelectorCandidate :=
    (XPathHelper.generate_xpath_variations element_description).map fun s =>
      { selector := s, selType := "xpath", confidence := 1 / 2,
        reasoning := "Fallback pattern-based selector" }
  let extended := { result with selectors := result.selectors ++ fallback_list }
  if !pyTruthy extended.best_selector && !fallback_list.isEmpty then
    { extended with
      best_selector := some ((fallback_list.headD default).selector),
      success := true }
  else extended

end AIElementDetector

/-! ## The resolution environment

`Env` packages the external collaborators `_get_element_selector` consults:
the Playwright page (its URL, HTML, and `find_element` probe, all functions
of the fixed page state during one resolution) and the AI layer's external
pieces (`clean_html` is `_clean_html`, three `re.sub` calls over the external
regex engine, and `analyze_dom` is the configured client's analysis call). -/

structure Env where
  find_element : String → String → Bool
  page_url : String
  page_html : String
  clean_html : String → String
  analyze_dom : String → String → String → AIResult

namespace AIElementDetector

/-- `find_element_selector` (ai_client.py lines 294-308): clean the HTML, run
the configured client's `analyze_dom`, and when the result is unsuccessful or
has a falsy `best_selector`, enhance it with the fallback selectors. -/
def find_element_selector (env : Env)
    (html_content element_description url : String) : AIResult :=
  let cleaned_html := env.clean_html html_content
  let result := env.analyze_dom cleaned_html element_description url
  if !result.success || !pyTruthy result.best_selector then
    add_fallback_selectors result element_description
  else result

end AIElementDetector

/-! ## TestExecutor._get_element_selector (src/src/test_executor.py 257-298) -/

/-- Which return statement of `_get_element_selector` produced the outcome
(the spec's `ResolutionResult.source`): the cache hit at lines 263-269, the
heuristic probe loop at lines 271-278, the validated AI selector at lines
287-295, or the final `return None` at line 298. -/
inductive Source
  | CACHE
  | HEURISTIC
  | AI
  | NONE
deriving Repr, DecidableEq

/-- The observable outcome of one `_get_element_selector` call: the returned
selector dict (if any), the cache table afterwards, the increments of the
`cache_hits` and `ai_calls` counters, every `find_element` probe issued in
order, and the returning branch. -/
structure ResolveOutcome where
  result : Option (String × String)
  cache : CacheTable
  cacheHits : Nat
  aiCalls : Nat
  probed : List (String × String)
  source : Source
deriving Repr, DecidableEq

namespace TestExecutor

/-- The `for xpath in xpath_variations` loop (test_executor.py lines
273-278): probe each candidate in order with `find_element(xpath, "xpath")`;
stop at the first success.  Returns the probed candidates in order and the
first hit. -/
def probeLoop (env : Env) : List String → List String × Option String
  | [] => ([], Option.none)
  | x :: xs =>
    if env.find_element x "xpath" then ([x], some x)
    else
      let r := probeLoop env xs
      (x :: r.1, r.2)

/-- `_get_element_selector` (test_executor.py lines 257-298), with the cache
table passed and returned explicitly and the counter increments and probes
recorded in the outcome. -/
def get_element_selector (env : Env) (cache : CacheTable)
    (element_description : String) : ResolveOutcome :=
  let current_url := env.page_url
  match ElementCache.get cache current_url element_description with
  | some cached_result =>
    { result := some (cached_result.selector, cached_result.selector_type),
      cache := cache, cacheHits := 1, aiCalls := 0, probed := [],
      source := Source.CACHE }
  | Option.none =>
    let xpath_variations := XPathHelper.generate_xpath_variations element_description
    let probes := probeLoop env xpath_variations
    match probes.2 with
    | some xpath =>
      { result := some (xpath, "xpath"),
        cache := ElementCache.set cache current_url element_description xpath "xpath",
        cacheHits := 0, aiCalls := 0,
        probed := probes.1.map fun s => (s, "xpath"),
        source := Source.HEURISTIC }
    | Option.none =>
      let html_content := env.page_html
      let ai_result := AIElementDetector.find_element_selector env html_content
        element_description current_url
      if ai_result.success && pyTruthy ai_result.best_selector then
        let selector := ai_result.best_selector.getD ""
        let selector_type :=
          if pyStartsWith selector "//" || pyStartsWith selector "xpath=" then "xpath"
          else "css"
        if env.find_element selector selector_type then
          { result := some (selector, selector_type),
            cache := ElementCache.set cache current_url element_description
              selector selector_type,
            cacheHits := 0, aiCalls := 1,
            probed := (probes.1.map fun s => (s, "xpath")) ++ [(selector, selector_type)],
            source := Source.AI }
        else
          { result := Option.none, cache := cache, cacheHits := 0, aiCalls := 1,
            probed := (probes.1.map fun s => (s, "xpath")) ++ [(selector, selector_type)],
            source := Source.NONE }
      else
        { result := Option.none, cache := cache, cacheHits := 0, aiCalls := 1,
          probed := probes.1.map fun s => (s, "xpath"),
          source := Source.NONE }

end TestExecutor

/-! ## Scenario execution (src/src/test_executor.py 81-134) -/

/-- `TestStep` (cucumber_parser.py lines 11-18). -/
structure TestStep where
  step_type : String
  step_text : String
  element_description : Option String := Option.none
  action : Option String := Option.none
  expected_text : Option String := Option.none
deriving Repr, DecidableEq

/-- `TestScenario` (cucumber_parser.py lines 21-27). -/
structure TestScenario where
  name : String
  steps : List TestStep
  tags : List String := []
  background_steps : List TestStep := []
deriving Repr, DecidableEq

/-- `TestResult` (test_executor.py lines 20-30), without the wall-clock
`execution_time` field. -/
structure TestResult where
  scenario_name : String
  passed : Bool
  steps_executed : Nat
  steps_passed : Nat
  steps_failed : Nat
  error_message : Option String
  failed_steps : List String
deriving Repr, DecidableEq

namespace TestExecutor

/-- The background loop (test_executor.py lines 94-102): every background
step runs; failures are tallied and recorded with a `Background: ` tag but
never break the loop.  `execStep` stands for `_execute_step` (which catches
its own exceptions and returns a bool); its first argument is the number of
steps executed so far, standing for the evolving browser/cache state a step
observes.  Returns (executed, passed, failed, failed step texts). -/
def runBackground (execStep : Nat → TestStep → Bool) :
    Nat → List TestStep → Nat × Nat × Nat × List String
  | _, [] => (0, 0, 0, [])
  | k, step :: rest =>
    let success := execStep k step
    let r := runBackground execStep (k + 1) rest
    (r.1 + 1,
     (if success then 1 else 0) + r.2.1,
     (if success then 0 else 1) + r.2.2.1,
     (if success then [] else ["Background: " ++ step.step_text]) ++ r.2.2.2)

/-- The scenario-step loop (test_executor.py lines 105-116): like the
background loop, but `break` on the first failure, leaving the rest of the
steps unexecuted. -/
def runMain (execStep : Nat → TestStep → Bool) :
    Nat → List TestStep → Nat × Nat × Nat × List String
  | _, [] => (0, 0, 0, [])
  | k, step :: rest =>
    if execStep k step then
      let r := runMain execStep (k + 1) rest
      (r.1 + 1, r.2.1 + 1, r.2.2.1, r.2.2.2)
    else (1, 0, 1, [step.step_text])

/-- `execute_scenario` (test_executor.py lines 81-134): background steps
first, then scenario steps with break-on-failure; `passed` is the line-123
conjunction.  `_execute_step` returns a bool for every step (its body is one
big `try`/`except` returning `False` on any exception), so the enclosing
`except` arm is not reachable from step execution and `error_message` stays
`None`. -/
def execute_scenario (execStep : Nat → TestStep → Bool)
    (scenario : TestScenario) : TestResult :=
  let bg := runBackground execStep 0 scenario.background_steps
  let main := runMain execStep scenario.background_steps.length scenario.steps
  let steps_failed := bg.2.2.1 + main.2.2.1
  let error_message : Option String := Option.none
  { scenario_name := scenario.name,
    passed := steps_failed == 0 && error_message.isNone,
    steps_executed := bg.1 + main.1,
    steps_passed := bg.2.1 + main.2.1,
    steps_failed := steps_failed,
    error_message := error_message,
    failed_steps := bg.2.2.2 ++ main.2.2.2 }

end TestExecutor

/-- A concrete resolution environment for counterexamples: no selector exists
on the page (every probe fails) and the AI backend is down (`analyze_dom`
always yields the transport-failure record). -/
def envNoMatchAIDown : Env :=
  { find_element := fun _ _ => false,
    page_url := "http://x.example/login",
    page_html := "<html><body></body></html>",
    clean_html := fun h => h,
    analyze_dom := fun _ _ _ => aiFailure "Connection error" }

/-- A concrete resolution environment in which exactly the universal
contains-text selector for "login button" exists on the page. -/
def envGenericHit : Env :=
  { find_element := fun sel _ => sel == "//*[contains(text(),'login button')]",
    page_url := "http://x.example/login",
    page_html := "<html><body><div>login button</div></body></html>",
    clean_html := fun h => h,
    analyze_dom := fun _ _ _ => aiFailure "down" }

/-- Concrete steps and scenario for exercising `execute_scenario`: one
background step and three main steps. -/
def stepBg : TestStep :=
  { step_type := "given", step_text := "I navigate to \x22http://x.example\x22",
    action := some "navigate" }

def stepClickW : TestStep :=
  { step_type := "when", step_text := "I click \x22login button\x22",
    element_description := some "login button", action := some "click" }

def stepTypeW : TestStep :=
  { step_type := "and", step_text := "I type \x22alice\x22 into \x22username field\x22",
    element_description := some "username field", action := some "type",
    expected_text := some "alice" }

def stepVerifyW : TestStep :=
  { step_type := "then", step_text := "I see \x22Welcome\x22",
    action := some "verify", expected_text := some "Welcome" }

def scenarioW : TestScenario :=
  { name := "Login", steps := [stepClickW, stepTypeW, stepVerifyW],
    background_steps := [stepBg] }

/-- A step evaluation in which only the step at position 1 succeeds: the
background step (position 0) fails, the first main step (position 1) passes,
the second main step (position 2) fails, and position 3 is never reached. -/
def execStepW : Nat → TestStep → Bool := fun k _ => k == 1

/-! ## Supporting lemmas -/

theorem dictGet_dictSet {α : Type} (m : List (String × α)) (k : String) (v : α) :
    dictGet (dictSet m k v) k = some v := by
  induction m with
  | nil => simp [dictGet, dictSet, List.find?_cons]
  | cons p t ih =>
    by_cases hp : p.1 == k
    · simp [dictGet, dictSet, hp, List.find?_cons]
    · simp only [dictSet, hp, Bool.false_eq_true, if_false]
      simp only [dictGet, List.find?_cons, hp] at ih ⊢
      exact ih

theorem strAppend_ne_empty_right (s t : String) (h : t ≠ "") : s ++ t ≠ "" := by
  intro he
  apply h
  have hd : s.data ++ t.data = ([] : List Char) := by
    have := congrArg String.data he
    simpa [String.data_append] using this
  have : t.data = [] := (List.append_eq_nil.mp hd).2
  cases t
  simp_all

theorem strAppend_right_cancel (a b c : String) (h : a ++ c = b ++ c) : a = b := by
  have hd := congrArg String.data h
  simp only [String.data_append] at hd
  have := List.append_cancel_right hd
  cases a; cases b; simp_all

theorem probeLoop_snd (env : Env) (l : List String) :
    (TestExecutor.probeLoop env l).2 = l.find? fun v => env.find_element v "xpath" := by
  induction l with
  | nil => rfl
  | cons x xs ih =>
    cases hx : env.find_element x "xpath" with
    | true => simp [TestExecutor.probeLoop, hx, List.find?_cons]
    | false =>
      simp only [TestExecutor.probeLoop, hx, Bool.false_eq_true, if_false]
      rw [List.find?_cons]
      simp only [hx]
      exact ih

theorem probeLoop_fst_none (env : Env) (l : List String)
    (h : (TestExecutor.probeLoop env l).2 = Option.none) :
    (TestExecutor.probeLoop env l).1 = l := by
  induction l with
  | nil => rfl
  | cons x xs ih =>
    cases hx : env.find_element x "xpath" with
    | true => simp [TestExecutor.probeLoop, hx] at h
    | false =>
      simp only [TestExecutor.probeLoop, hx, Bool.false_eq_true, if_false] at h ⊢
      rw [ih h]

theorem probeLoop_fst_some (env : Env) (l : List String) (v : String)
    (h : (TestExecutor.probeLoop env l).2 = some v) :
    (TestExecutor.probeLoop env l).1 =
      (l.takeWhile fun s => !env.find_element s "xpath") ++ [v] := by
  induction l with
  | nil => cases h
  | cons x xs ih =>
    cases hx : env.find_element x "xpath" with
    | true =>
      simp only [TestExecutor.probeLoop, hx, if_true] at h ⊢
      cases h
      simp [List.takeWhile_cons, hx]
    | false =>
      simp only [TestExecutor.probeLoop, hx, Bool.false_eq_true, if_false] at h ⊢
      rw [List.takeWhile_cons]
      simp only [hx, Bool.not_false, if_true, List.cons_append]
      rw [ih h]

theorem generate_ne_nil (d : String) :
    XPathHelper.generate_xpath_variations d ≠ [] := by
  unfold XPathHelper.generate_xpath_variations
  intro h
  simp at h

theorem generate_getLast (d : String) :
    (XPathHelper.generate_xpath_variations d).getLast? =
      some (XPathHelper.element_by_text (pyStrip d)) := by
  simp only [XPathHelper.generate_xpath_variations]
  rw [List.getLast?_concat]

theorem element_by_text_mem_generate (d : String) :
    XPathHelper.element_by_text (pyStrip d) ∈ XPathHelper.generate_xpath_variations d := by
  unfold XPathHelper.generate_xpath_variations
  simp

theorem mem_generate_ne_empty (d v : String)
    (h : v ∈ XPathHelper.generate_xpath_variations d) : v ≠ "" := by
  simp only [XPathHelper.generate_xpath_variations] at h
  simp only [List.mem_append, List.mem_singleton] at h
  rcases h with ((hb | hl) | hi) | hg
  · split at hb
    · simp only [List.mem_cons, List.not_mem_nil, or_false] at hb
      rcases hb with h1 | h1 | h1 | h1 <;> rw [h1] <;>
        exact strAppend_ne_empty_right _ _ (by decide)
    · cases hb
  · split at hl
    · simp only [List.mem_cons, List.not_mem_nil, or_false] at hl
      rcases hl with h1 | h1 <;> rw [h1] <;>
        exact strAppend_ne_empty_right _ _ (by decide)
    · cases hl
  · split at hi
    · simp only [List.mem_cons, List.not_mem_nil, or_false] at hi
      rcases hi with h1 | h1 | h1 | h1 <;> rw [h1] <;>
        exact strAppend_ne_empty_right _ _ (by decide)
    · cases hi
  · rw [hg]
    exact strAppend_ne_empty_right _ _ (by decide)

theorem ges_cache_hit (env : Env) (cache : CacheTable) (desc : String)
    (e : CacheEntry) (h : ElementCache.get cache env.page_url desc = some e) :
    TestExecutor.get_element_selector env cache desc =
      { result := some (e.selector, e.selector_type), cache := cache,
        cacheHits := 1, aiCalls := 0, probed := [], source := Source.CACHE } := by
  simp only [TestExecutor.get_element_selector, h]

theorem ges_heuristic_hit (env : Env) (cache : CacheTable) (desc v : String)
    (hmiss : ElementCache.get cache env.page_url desc = Option.none)
    (hhit : (TestExecutor.probeLoop env
      (XPathHelper.generate_xpath_variations desc)).2 = some v) :
    TestExecutor.get_element_selector env cache desc =
      { result := some (v, "xpath"),
        cache := ElementCache.set cache env.page_url desc v "xpath",
        cacheHits := 0, aiCalls := 0,
        probed := (TestExecutor.probeLoop env
          (XPathHelper.generate_xpath_variations desc)).1.map fun s => (s, "xpath"),
        source := Source.HEURISTIC } := by
  simp only [TestExecutor.get_element_selector, hmiss, hhit]

theorem ges_ai_validated (env : Env) (cache : CacheTable) (desc : String)
    (hmiss : ElementCache.get cache env.page_url desc = Option.none)
    (hnone : (TestExecutor.probeLoop env
      (XPathHelper.generate_xpath_variations desc)).2 = Option.none)
    (hcond : ((AIElementDetector.find_element_selector env env.page_html desc
        env.page_url).success &&
      pyTruthy (AIElementDetector.find_element_selector env env.page_html desc
        env.page_url).best_selector) = true)
    (hfound : env.find_element
      ((AIElementDetector.find_element_selector env env.page_html desc
        env.page_url).best_selector.getD "")
      (if pyStartsWith ((AIElementDetector.find_element_selector env
            env.page_html desc env.page_url).best_selector.getD "") "//" ||
          pyStartsWith ((AIElementDetector.find_element_selector env
            env.page_html desc env.page_url).best_selector.getD "") "xpath="
        then "xpath" else "css") = true) :
    TestExecutor.get_element_selector env cache desc =
      { result := some
          ((AIElementDetector.find_element_selector env env.page_html desc
            env.page_url).best_selector.getD "",
           if pyStartsWith ((AIElementDetector.find_element_selector env
                env.page_html desc env.page_url).best_selector.getD "") "//" ||
              pyStartsWith ((AIElementDetector.find_element_selector env
                env.page_html desc env.page_url).best_selector.getD "") "xpath="
            then "xpath" else "css"),
        cache := ElementCache.set cache env.page_url desc
          ((AIElementDetector.find_element_selector env env.page_html desc
            env.page_url).best_selector.getD "")
          (if pyStartsWith ((AIElementDetector.find_element_selector env
                env.page_html desc env.page_url).best_selector.getD "") "//" ||
              pyStartsWith ((AIElementDetector.find_element_selector env
                env.page_html desc env.page_url).best_selector.getD "") "xpath="
            then "xpath" else "css"),
        cacheHits := 0, aiCalls := 1,
        probed := ((TestExecutor.probeLoop env
            (XPathHelper.generate_xpath_variations desc)).1.map fun s =>
              (s, "xpath")) ++
          [((AIElementDetector.find_element_selector env env.page_html desc
              env.page_url).best_selector.getD "",
            if pyStartsWith ((AIElementDetector.find_element_selector env
                  env.page_html desc env.page_url).best_selector.getD "") "//" ||
                pyStartsWith ((AIElementDetector.find_element_selector env
                  env.page_html desc env.page_url).best_selector.getD "") "xpath="
              then "xpath" else "css")],
        source := Source.AI } := by
  simp only [TestExecutor.get_element_selector, hmiss, hnone, hcond, if_true, hfound]

theorem ges_ai_unvalidated (env : Env) (cache : CacheTable) (desc : String)
    (hmiss : ElementCache.get cache env.page_url desc = Option.none)
    (hnone : (TestExecutor.probeLoop env
      (XPathHelper.generate_xpath_variations desc)).2 = Option.none)
    (hcond : ((AIElementDetector.find_element_selector env env.page_html desc
        env.page_url).success &&
      pyTruthy (AIElementDetector.find_element_selector env env.page_html desc
        env.page_url).best_selector) = true)
    (hfound : env.find_element
      ((AIElementDetector.find_element_selector env env.page_html desc
        env.page_url).best_selector.getD "")
      (if pyStartsWith ((AIElementDetector.find_element_selector env
            env.page_html desc env.page_url).best_selector.getD "") "//" ||
          pyStartsWith ((AIElementDetector.find_element_selector env
            env.page_html desc env.page_url).best_selector.getD "") "xpath="
        then "xpath" else "css") = false) :
    TestExecutor.get_element_selector env cache desc =
      { result := Option.none, cache := cache, cacheHits := 0, aiCalls := 1,
        probed := ((TestExecutor.probeLoop env
            (XPathHelper.generate_xpath_variations desc)).1.map fun s =>
              (s, "xpath")) ++
          [((AIElementDetector.find_element_selector env env.page_html desc
              env.page_url).best_selector.getD "",
            if pyStartsWith ((AIElementDetector.find_element_selector env
                  env.page_html desc env.page_url).best_selector.getD "") "//" ||
                pyStartsWith ((AIElementDetector.find_element_selector env
                  env.page_html desc env.page_url).best_selector.getD "") "xpath="
              then "xpath" else "css")],
        source := Source.NONE } := by
  simp only [TestExecutor.get_element_selector, hmiss, hnone, hcond, if_true, hfound,
    Bool.false_eq_true, if_false]

theorem ges_ai_no_candidate (env : Env) (cache : CacheTable) (desc : String)
    (hmiss : ElementCache.get cache env.page_url desc = Option.none)
    (hnone : (TestExecutor.probeLoop env
      (XPathHelper.generate_xpath_variations desc)).2 = Option.none)
    (hcond : ((AIElementDetector.find_element_selector env env.page_html desc
        env.page_url).success &&
      pyTruthy (AIElementDetector.find_element_selector env env.page_html desc
        env.page_url).best_selector) = false) :
    TestExecutor.get_element_selector env cache desc =
      { result := Option.none, cache := cache, cacheHits := 0, aiCalls := 1,
        probed := (TestExecutor.probeLoop env
          (XPathHelper.generate_xpath_variations desc)).1.map fun s => (s, "xpath"),
        source := Source.NONE } := by
  simp only [TestExecutor.get_element_selector, hmiss, hnone, hcond, Bool.false_eq_true,
    if_false]

/-! ## Claim theorems -/

/-- C5: `generate_xpath_variations "Login button"` yields the exact-text
button selector first and the contains-text button selector second, and for
every description the generic contains-text selector is the last element of
the (always nonempty) generated sequence; the generator is a pure function of
the description, so it is deterministic. -/
theorem heuristic_generator_ordering :
    XPathHelper.generate_xpath_variations "Login button" =
      ["//button[text()='Login']",
       "//button[contains(text(),'Login')]",
       "//input[@type='button' and @value='Login']",
       "//input[@type='submit' and @value='Login']",
       "//*[contains(text(),'Login button')]"] ∧
    (∀ d : String, (XPathHelper.generate_xpath_variations d).getLast? =
      some (XPathHelper.element_by_text (pyStrip d))) ∧
    (∀ d : String, XPathHelper.generate_xpath_variations d ≠ []) := by
  exact ⟨by decide, generate_getLast, generate_ne_nil⟩

set_option maxRecDepth 8192 in
/-- C6: the cache key is the MD5 of `url ++ "::" ++ lower(strip(description))`,
so it is invariant under case and surrounding-whitespace changes of the
description and is a deterministic function of the pair; for distinct URLs
the hash inputs always differ (shown in full), and on concrete distinct URLs
the resulting keys differ (the remaining gap — absence of MD5 collisions in
general — is exactly the claim's "overwhelming probability" hedge). -/
theorem cache_key_determinism :
    (∀ url : String, ElementCache.generate_key url "Login Button" =
      ElementCache.generate_key url "  login button  ") ∧
    (∀ url d1 d2 : String, pyStrip (pyLower d1) = pyStrip (pyLower d2) →
      ElementCache.generate_key url d1 = ElementCache.generate_key url d2) ∧
    (∀ url1 url2 d : String, url1 ≠ url2 →
      ElementCache.key_material url1 d ≠ ElementCache.key_material url2 d) ∧
    ElementCache.generate_key "http://a.example" "login button" ≠
      ElementCache.generate_key "http://b.example" "login button" := by
  refine ⟨?_, ?_, ?_, ?_⟩
  · intro url
    have h : pyStrip (pyLower "Login Button") = pyStrip (pyLower "  login button  ") := by
      decide
    unfold ElementCache.generate_key ElementCache.key_material
    rw [h]
  · intro url d1 d2 h
    unfold ElementCache.generate_key ElementCache.key_material
    rw [h]
  · intro url1 url2 d hne heq
    apply hne
    unfold ElementCache.key_material at heq
    exact strAppend_right_cancel _ _ _ (strAppend_right_cancel _ _ _ heq)
  · decide

set_option maxRecDepth 8192 in
/-- Witness for the hypothesis-bearing parts of `cache_key_determinism`,
applied at concrete inputs. -/
theorem cache_key_determinism_witness :
    ElementCache.generate_key "u" "A " = ElementCache.generate_key "u" "a" ∧
    ElementCache.key_material "http://a.example" "d" ≠
      ElementCache.key_material "http://b.example" "d" :=
  ⟨cache_key_determinism.2.1 "u" "A " "a" (by decide),
   cache_key_determinism.2.2.1 "http://a.example" "http://b.example" "d" (by decide)⟩

/-- C8: `get` on a table holding no entry for the key returns `None` (a
first-class outcome, not an exception); a corrupt or missing backing store at
load time leaves the cache empty rather than failing; and a `set` whose
persist step fails still leaves the entry in the in-memory table, with the
failure not surfaced to the caller. -/
theorem cache_error_semantics :
    (∀ (cache : CacheTable) (url desc : String),
      (∀ p ∈ cache, p.1 ≠ ElementCache.generate_key url desc) →
      ElementCache.get cache url desc = Option.none) ∧
    (ElementCache.load_cache ElementCache.BackingLoad.corrupt = [] ∧
     ElementCache.load_cache ElementCache.BackingLoad.missing = []) ∧
    (∀ (cache : CacheTable) (url desc sel ty : String) (persistOk : Bool),
      ElementCache.get (ElementCache.set cache url desc sel ty Option.none persistOk)
          url desc =
        some { selector := sel, selector_type := ty, url := url,
               element_description := desc, metadata := [] }) := by
  refine ⟨?_, ⟨rfl, rfl⟩, ?_⟩
  · intro cache url desc h
    unfold ElementCache.get dictGet
    rw [List.find?_eq_none.mpr]
    · rfl
    · intro p hp
      simp [h p hp]
  · intro cache url desc sel ty persistOk
    unfold ElementCache.set ElementCache.save_cache ElementCache.get
    exact dictGet_dictSet _ _ _

/-- Witness for `cache_error_semantics`: the empty table misses, and a set
with a failing persist still hits in memory. -/
theorem cache_error_semantics_witness :
    ElementCache.get [] "http://u.example" "login button" = Option.none ∧
    ElementCache.get
        (ElementCache.set [] "http://u.example" "login button"
          "//button[text()='Login']" "xpath" Option.none false)
        "http://u.example" "login button" =
      some { selector := "//button[text()='Login']", selector_type := "xpath",
             url := "http://u.example", element_description := "login button",
             metadata := [] } :=
  ⟨cache_error_semantics.1 [] "http://u.example" "login button" (by simp),
   cache_error_semantics.2.2 [] "http://u.example" "login button"
     "//button[text()='Login']" "xpath" false⟩

/-- C9: the configured default provider is "openai", and with an OpenAI API
key present `_initialize_client` still fails at construction time: the
`OpenAIClient` class body never defines `analyze_dom`, so the abstract-method
check refuses to instantiate it. -/
theorem openai_provider_unconstructible :
    defaultSettings.ai_provider = "openai" ∧
    ∀ key : String, pyTruthy (some key) = true →
      AIElementDetector.initialize_client
          { defaultSettings with openai_api_key := some key } =
        Except.error "TypeError: Can't instantiate abstract class OpenAIClient with abstract method analyze_dom" := by
  refine ⟨rfl, ?_⟩
  intro key hk
  unfold AIElementDetector.initialize_client
  simp [defaultSettings, hk, AIClientABC.instantiable, AIClientABC.abstract_methods,
    AIClientABC.openai_client_methods]

/-- Witness for `openai_provider_unconstructible` at a concrete key. -/
theorem openai_provider_unconstructible_witness :
    AIElementDetector.initialize_client
        { defaultSettings with openai_api_key := some "sk-test" } =
      Except.error "TypeError: Can't instantiate abstract class OpenAIClient with abstract method analyze_dom" :=
  openai_provider_unconstructible.2 "sk-test" (by decide)

/-- C10: under the azure_openai provider the effective `analyze_dom` (the
second, shadowing definition) reads the never-set `model` attribute, so every
call returns the failure record — empty selector list, absent best selector,
success false — regardless of the backend's behaviour; consequently the
detector's `find_element_selector` always degrades to the fallback-selector
path under this provider. -/
theorem azure_analyze_dom_always_fails :
    (∀ (backend : String → String → String → Except String AIResult)
        (html desc url : String),
      AzureOpenAIClient.analyze_dom AzureOpenAIClient.init_attr_names backend
          html desc url =
        aiFailure "'AzureOpenAIClient' object has no attribute 'model'") ∧
    (∀ (env : Env) (backend : String → String → String → Except String AIResult)
        (html desc url : String),
      env.analyze_dom = AzureOpenAIClient.analyze_dom
          AzureOpenAIClient.init_attr_names backend →
      AIElementDetector.find_element_selector env html desc url =
        AIElementDetector.add_fallback_selectors
          (aiFailure "'AzureOpenAIClient' object has no attribute 'model'") desc) := by
  constructor
  · intro backend html desc url
    rfl
  · intro env backend html desc url h
    unfold AIElementDetector.find_element_selector
    rw [h]
    rfl

/-- Witness for `azure_analyze_dom_always_fails` on a concrete environment. -/
theorem azure_analyze_dom_always_fails_witness :
    AIElementDetector.find_element_selector
        { find_element := fun _ _ => false, page_url := "http://x.example",
          page_html := "<p></p>", clean_html := fun h => h,
          analyze_dom := AzureOpenAIClient.analyze_dom
            AzureOpenAIClient.init_attr_names
            (fun _ _ _ => Except.error "unreachable") }
        "<p></p>" "login button" "http://x.example" =
      AIElementDetector.add_fallback_selectors
        (aiFailure "'AzureOpenAIClient' object has no attribute 'model'")
        "login button" :=
  azure_analyze_dom_always_fails.2 _ (fun _ _ _ => Except.error "unreachable")
    "<p></p>" "login button" "http://x.example" rfl

theorem ges_set_get (cache : CacheTable) (url desc sel ty : String) :
    ElementCache.get (ElementCache.set cache url desc sel ty) url desc =
      some { selector := sel, selector_type := ty, url := url,
             element_description := desc, metadata := [] } := by
  unfold ElementCache.set ElementCache.save_cache ElementCache.get
  exact dictGet_dictSet _ _ _

theorem ges_result_cached (env : Env) (cache : CacheTable) (desc sel ty : String)
    (h : (TestExecutor.get_element_selector env cache desc).result = some (sel, ty)) :
    ∃ e : CacheEntry,
      ElementCache.get (TestExecutor.get_element_selector env cache desc).cache
          env.page_url desc = some e ∧
      e.selector = sel ∧ e.selector_type = ty := by
  cases hget : ElementCache.get cache env.page_url desc with
  | some e =>
    rw [ges_cache_hit env cache desc e hget] at h ⊢
    simp only [Option.some.injEq, Prod.mk.injEq] at h
    exact ⟨e, hget, h.1, h.2⟩
  | none =>
    cases hp : (TestExecutor.probeLoop env
        (XPathHelper.generate_xpath_variations desc)).2 with
    | some v =>
      rw [ges_heuristic_hit env cache desc v hget hp] at h ⊢
      simp only [Option.some.injEq, Prod.mk.injEq] at h
      refine ⟨_, ges_set_get cache env.page_url desc v "xpath", h.1, h.2⟩
    | none =>
      cases hcond : ((AIElementDetector.find_element_selector env env.page_html
          desc env.page_url).success &&
        pyTruthy (AIElementDetector.find_element_selector env env.page_html desc
          env.page_url).best_selector) with
      | false =>
        rw [ges_ai_no_candidate env cache desc hget hp hcond] at h
        cases h
      | true =>
        cases hfound : env.find_element
            ((AIElementDetector.find_element_selector env env.page_html desc
              env.page_url).best_selector.getD "")
            (if pyStartsWith ((AIElementDetector.find_element_selector env
                  env.page_html desc env.page_url).best_selector.getD "") "//" ||
                pyStartsWith ((AIElementDetector.find_element_selector env
                  env.page_html desc env.page_url).best_selector.getD "") "xpath="
              then "xpath" else "css") with
        | false =>
          rw [ges_ai_unvalidated env cache desc hget hp hcond hfound] at h
          cases h
        | true =>
          rw [ges_ai_validated env cache desc hget hp hcond hfound] at h ⊢
          simp only [Option.some.injEq, Prod.mk.injEq] at h
          refine ⟨_, ges_set_get cache env.page_url desc _ _, h.1, h.2⟩

/-- C1: a cache hit returns the cached selector at once with source CACHE —
no probe, no heuristic candidate, no AI call, cache untouched — and
consequently a second `_get_element_selector` call right after any call that
returned a selector hands back the identical selector from the cache tier
alone (no probes, no AI, source CACHE). -/
theorem cache_tier_trust_and_idempotence (env : Env) (cache : CacheTable)
    (desc : String) :
    (∀ e : CacheEntry, ElementCache.get cache env.page_url desc = some e →
      TestExecutor.get_element_selector env cache desc =
        { result := some (e.selector, e.selector_type), cache := cache,
          cacheHits := 1, aiCalls := 0, probed := [], source := Source.CACHE }) ∧
    (∀ sel ty : String,
      (TestExecutor.get_element_selector env cache desc).result = some (sel, ty) →
      TestExecutor.get_element_selector env
          (TestExecutor.get_element_selector env cache desc).cache desc =
        { result := some (sel, ty),
          cache := (TestExecutor.get_element_selector env cache desc).cache,
          cacheHits := 1, aiCalls := 0, probed := [], source := Source.CACHE }) := by
  constructor
  · intro e h
    exact ges_cache_hit env cache desc e h
  · intro sel ty h
    obtain ⟨e, he, hsel, hty⟩ := ges_result_cached env cache desc sel ty h
    rw [ges_cache_hit env _ desc e he, hsel, hty]

set_option maxRecDepth 8192 in
/-- Witness for `cache_tier_trust_and_idempotence`: a concrete pre-seeded
cache hit, and the second of two back-to-back calls on an initially empty
cache. -/
theorem cache_tier_trust_and_idempotence_witness :
    TestExecutor.get_element_selector envGenericHit
        (ElementCache.set [] envGenericHit.page_url "login button"
          "//button[text()='Login']" "xpath") "login button" =
      { result := some ("//button[text()='Login']", "xpath"),
        cache := ElementCache.set [] envGenericHit.page_url "login button"
          "//button[text()='Login']" "xpath",
        cacheHits := 1, aiCalls := 0, probed := [], source := Source.CACHE } ∧
    TestExecutor.get_element_selector envGenericHit
        (TestExecutor.get_element_selector envGenericHit [] "login button").cache
        "login button" =
      { result := some ("//*[contains(text(),'login button')]", "xpath"),
        cache := (TestExecutor.get_element_selector envGenericHit []
          "login button").cache,
        cacheHits := 1, aiCalls := 0, probed := [], source := Source.CACHE } :=
  ⟨(cache_tier_trust_and_idempotence envGenericHit _ "login button").1
      { selector := "//button[text()='Login']", selector_type := "xpath",
        url := "http://x.example/login", element_description := "login button",
        metadata := [] } (by decide),
   (cache_tier_trust_and_idempotence envGenericHit [] "login button").2
      "//*[contains(text(),'login button')]" "xpath" (by decide)⟩

/-- C4: on a cache miss the heuristic candidates are probed in generator
order; the first existing candidate is returned with source HEURISTIC, the
(url, description) → selector mapping is written to the cache before
returning, and the AI resolver is not invoked (its call-count increment is
zero). -/
theorem heuristic_tier_first_hit (env : Env) (cache : CacheTable)
    (desc v : String)
    (hmiss : ElementCache.get cache env.page_url desc = Option.none)
    (hfirst : (XPathHelper.generate_xpath_variations desc).find?
      (fun s => env.find_element s "xpath") = some v) :
    TestExecutor.get_element_selector env cache desc =
      { result := some (v, "xpath"),
        cache := ElementCache.set cache env.page_url desc v "xpath",
        cacheHits := 0, aiCalls := 0,
        probed := (((XPathHelper.generate_xpath_variations desc).takeWhile
            (fun s => !env.find_element s "xpath")).map fun s => (s, "xpath")) ++
          [(v, "xpath")],
        source := Source.HEURISTIC } ∧
    ElementCache.get
        (TestExecutor.get_element_selector env cache desc).cache
        env.page_url desc =
      some { selector := v, selector_type := "xpath", url := env.page_url,
             element_description := desc, metadata := [] } := by
  have hhit : (TestExecutor.probeLoop env
      (XPathHelper.generate_xpath_variations desc)).2 = some v := by
    rw [probeLoop_snd]; exact hfirst
  have hrec := ges_heuristic_hit env cache desc v hmiss hhit
  constructor
  · rw [hrec, probeLoop_fst_some env _ v hhit]
    simp [List.map_append]
  · rw [hrec]
    exact ges_set_get cache env.page_url desc v "xpath"

set_option maxRecDepth 8192 in
/-- Witness for `heuristic_tier_first_hit`: on `envGenericHit` the button
candidates fail and the generic contains-text candidate is the first hit. -/
theorem heuristic_tier_first_hit_witness :
    TestExecutor.get_element_selector envGenericHit [] "login button" =
      { result := some ("//*[contains(text(),'login button')]", "xpath"),
        cache := ElementCache.set [] envGenericHit.page_url "login button"
          "//*[contains(text(),'login button')]" "xpath",
        cacheHits := 0, aiCalls := 0,
        probed := (((XPathHelper.generate_xpath_variations "login button").takeWhile
            (fun s => !envGenericHit.find_element s "xpath")).map fun s =>
              (s, "xpath")) ++
          [("//*[contains(text(),'login button')]", "xpath")],
        source := Source.HEURISTIC } ∧
    ElementCache.get
        (TestExecutor.get_element_selector envGenericHit [] "login button").cache
        envGenericHit.page_url "login button" =
      some { selector := "//*[contains(text(),'login button')]",
             selector_type := "xpath", url := envGenericHit.page_url,
             element_description := "login button", metadata := [] } :=
  heuristic_tier_first_hit envGenericHit [] "login button"
    "//*[contains(text(),'login button')]" (by decide) (by decide)

/-- C3: whenever the universal contains-text selector for the description
exists on the page, `_get_element_selector` never returns the no-selector
outcome (source NONE) — regardless of the cache contents and of what the AI
analysis would do, including any transport failure. -/
theorem fallback_guarantee (env : Env) (cache : CacheTable) (desc : String)
    (h : env.find_element (XPathHelper.element_by_text (pyStrip desc)) "xpath"
      = true) :
    (TestExecutor.get_element_selector env cache desc).source ≠ Source.NONE ∧
    (TestExecutor.get_element_selector env cache desc).result.isSome = true := by
  cases hget : ElementCache.get cache env.page_url desc with
  | some e =>
    rw [ges_cache_hit env cache desc e hget]
    exact ⟨by simp, rfl⟩
  | none =>
    cases hp : (TestExecutor.probeLoop env
        (XPathHelper.generate_xpath_variations desc)).2 with
    | none =>
      exfalso
      rw [probeLoop_snd] at hp
      have := List.find?_eq_none.mp hp _ (element_by_text_mem_generate desc)
      rw [h] at this
      exact this rfl
    | some v =>
      rw [ges_heuristic_hit env cache desc v hget hp]
      exact ⟨by simp, rfl⟩

/-- Witness for `fallback_guarantee` on `envGenericHit`, whose page contains
the generic selector for "login button" while its AI transport is down. -/
theorem fallback_guarantee_witness :
    (TestExecutor.get_element_selector envGenericHit [] "login button").source ≠
      Source.NONE ∧
    (TestExecutor.get_element_selector envGenericHit [] "login button").result.isSome
      = true :=
  fallback_guarantee envGenericHit [] "login button" (by decide)

/-- C2 counterexample: with the cache empty, every candidate absent from the
page and the AI transport failing, the candidate list regenerated by the
fallback is nonempty — yet `_get_element_selector` returns no selector
(source NONE), instead of returning that first candidate unvalidated. -/
theorem fallback_unvalidated_counterexample :
    ElementCache.get [] envNoMatchAIDown.page_url "x" = Option.none ∧
    (∀ v ∈ XPathHelper.generate_xpath_variations "x", ∀ ty : String,
      envNoMatchAIDown.find_element v ty = false) ∧
    envNoMatchAIDown.analyze_dom
        (envNoMatchAIDown.clean_html envNoMatchAIDown.page_html) "x"
        envNoMatchAIDown.page_url =
      aiFailure "Connection error" ∧
    XPathHelper.generate_xpath_variations "x" ≠ [] ∧
    (TestExecutor.get_element_selector envNoMatchAIDown [] "x").result =
      Option.none ∧
    (TestExecutor.get_element_selector envNoMatchAIDown [] "x").source =
      Source.NONE :=
  ⟨rfl, fun _ _ ty => rfl, rfl, by decide, by decide, by decide⟩

/-- C2 as the code has it: when the cache misses, no candidate exists on the
page and the AI analysis yields no usable best selector, the detector does
re-run the heuristic generator, append its candidates at confidence 0.5 and
promote the first to `best_selector` with success true — but
`_get_element_selector` then validates that promoted candidate against the
DOM like any AI result; the validation fails (the candidate was already
probed), so resolve returns no selector with source NONE and the cache
unchanged, even though the regenerated candidate list is never empty. -/
theorem fallback_tier_validates_then_returns_none (env : Env)
    (cache : CacheTable) (desc : String)
    (hmiss : ElementCache.get cache env.page_url desc = Option.none)
    (hnotfound : ∀ v ∈ XPathHelper.generate_xpath_variations desc,
      ∀ ty : String, env.find_element v ty = false)
    (hbest : pyTruthy (env.analyze_dom (env.clean_html env.page_html) desc
      env.page_url).best_selector = false) :
    (AIElementDetector.find_element_selector env env.page_html desc
      env.page_url).success = true ∧
    (AIElementDetector.find_element_selector env env.page_html desc
      env.page_url).best_selector =
      some ((XPathHelper.generate_xpath_variations desc).headD "") ∧
    (AIElementDetector.find_element_selector env env.page_html desc
      env.page_url).selectors =
      (env.analyze_dom (env.clean_html env.page_html) desc
        env.page_url).selectors ++
        (XPathHelper.generate_xpath_variations desc).map (fun s =>
          { selector := s, selType := "xpath", confidence := 1 / 2,
            reasoning := "Fallback pattern-based selector" }) ∧
    (TestExecutor.get_element_selector env cache desc).result = Option.none ∧
    (TestExecutor.get_element_selector env cache desc).source = Source.NONE ∧
    (TestExecutor.get_element_selector env cache desc).aiCalls = 1 ∧
    (TestExecutor.get_element_selector env cache desc).cache = cache ∧
    (TestExecutor.get_element_selector env cache desc).probed.map Prod.fst =
      XPathHelper.generate_xpath_variations desc ++
        [(XPathHelper.generate_xpath_variations desc).headD ""] := by
  cases hv : XPathHelper.generate_xpath_variations desc with
  | nil => exact absurd hv (generate_ne_nil desc)
  | cons v0 vt =>
    have hv0mem : v0 ∈ XPathHelper.generate_xpath_variations desc := by
      rw [hv]; exact List.mem_cons_self v0 vt
    have hv0ne : v0 ≠ "" := mem_generate_ne_empty desc v0 hv0mem
    have hv0beq : (v0 == "") = false := by
      simp [hv0ne]
    have hA : AIElementDetector.find_element_selector env env.page_html desc
        env.page_url =
        { selectors := (env.analyze_dom (env.clean_html env.page_html) desc
            env.page_url).selectors ++
            (v0 :: vt).map (fun s =>
              { selector := s, selType := "xpath", confidence := 1 / 2,
                reasoning := "Fallback pattern-based selector" }),
          best_selector := some v0, success := true,
          error := (env.analyze_dom (env.clean_html env.page_html) desc
            env.page_url).error } := by
      simp only [AIElementDetector.find_element_selector,
        AIElementDetector.add_fallback_selectors, hbest, hv, Bool.not_false,
        Bool.or_true, if_true, List.map_cons, List.isEmpty_cons,
        Bool.and_true, List.headD_cons]
    have hnone : (TestExecutor.probeLoop env
        (XPathHelper.generate_xpath_variations desc)).2 = Option.none := by
      rw [probeLoop_snd]
      refine List.find?_eq_none.mpr fun x hx => ?_
      rw [hnotfound x hx "xpath"]
      simp
    have hcond : ((AIElementDetector.find_element_selector env env.page_html
        desc env.page_url).success &&
        pyTruthy (AIElementDetector.find_element_selector env env.page_html desc
          env.page_url).best_selector) = true := by
      rw [hA]
      simp [pyTruthy, hv0beq]
    have hsel : (AIElementDetector.find_element_selector env env.page_html desc
        env.page_url).best_selector.getD "" = v0 := by
      rw [hA]
      rfl
    have hfound : env.find_element
        ((AIElementDetector.find_element_selector env env.page_html desc
          env.page_url).best_selector.getD "")
        (if pyStartsWith ((AIElementDetector.find_element_selector env
              env.page_html desc env.page_url).best_selector.getD "") "//" ||
            pyStartsWith ((AIElementDetector.find_element_selector env
              env.page_html desc env.page_url).best_selector.getD "") "xpath="
          then "xpath" else "css") = false := by
      rw [hsel]
      exact hnotfound v0 hv0mem _
    have hrec := ges_ai_unvalidated env cache desc hmiss hnone hcond hfound
    have hfst : (TestExecutor.probeLoop env
        (XPathHelper.generate_xpath_variations desc)).1 =
        XPathHelper.generate_xpath_variations desc :=
      probeLoop_fst_none env _ hnone
    refine ⟨by rw [hA], by rw [hA]; rfl, by rw [hA], ?_, ?_, ?_, ?_, ?_⟩
    · rw [hrec]
    · rw [hrec]
    · rw [hrec]
    · rw [hrec]
    · rw [hrec]
      simp only [List.map_append, List.map_map, List.map_cons, List.map_nil, hfst]
      rw [hsel, hv, List.headD_cons]
      simp [Function.comp_def]

/-- Witness for `fallback_tier_validates_then_returns_none` on the concrete
environment with an empty page and a failing AI transport. -/
theorem fallback_tier_validates_then_returns_none_witness :
    (AIElementDetector.find_element_selector envNoMatchAIDown
      envNoMatchAIDown.page_html "x" envNoMatchAIDown.page_url).success = true ∧
    (AIElementDetector.find_element_selector envNoMatchAIDown
      envNoMatchAIDown.page_html "x" envNoMatchAIDown.page_url).best_selector =
      some ((XPathHelper.generate_xpath_variations "x").headD "") ∧
    (AIElementDetector.find_element_selector envNoMatchAIDown
      envNoMatchAIDown.page_html "x" envNoMatchAIDown.page_url).selectors =
      (envNoMatchAIDown.analyze_dom
        (envNoMatchAIDown.clean_html envNoMatchAIDown.page_html) "x"
        envNoMatchAIDown.page_url).selectors ++
        (XPathHelper.generate_xpath_variations "x").map (fun s =>
          { selector := s, selType := "xpath", confidence := 1 / 2,
            reasoning := "Fallback pattern-based selector" }) ∧
    (TestExecutor.get_element_selector envNoMatchAIDown [] "x").result =
      Option.none ∧
    (TestExecutor.get_element_selector envNoMatchAIDown [] "x").source =
      Source.NONE ∧
    (TestExecutor.get_element_selector envNoMatchAIDown [] "x").aiCalls = 1 ∧
    (TestExecutor.get_element_selector envNoMatchAIDown [] "x").cache = [] ∧
    (TestExecutor.get_element_selector envNoMatchAIDown [] "x").probed.map
        Prod.fst =
      XPathHelper.generate_xpath_variations "x" ++
        [(XPathHelper.generate_xpath_variations "x").headD ""] :=
  fallback_tier_validates_then_returns_none envNoMatchAIDown [] "x" rfl
    (fun _ _ _ => rfl) rfl

theorem runBackground_executes_all (execStep : Nat → TestStep → Bool)
    (k : Nat) (l : List TestStep) :
    (TestExecutor.runBackground execStep k l).1 = l.length := by
  induction l generalizing k with
  | nil => rfl
  | cons step rest ih =>
    simp only [TestExecutor.runBackground, ih, List.length_cons]

theorem runMain_stops_at_first_failure (execStep : Nat → TestStep → Bool) :
    ∀ (l : List TestStep) (k i : Nat) (hi : i < l.length),
    execStep (k + i) (l.get ⟨i, hi⟩) = false →
    (∀ j, j < i → ∀ (hj : j < l.length), execStep (k + j) (l.get ⟨j, hj⟩) = true) →
    TestExecutor.runMain execStep k l =
      (i + 1, i, 1, [(l.get ⟨i, hi⟩).step_text]) := by
  intro l
  induction l with
  | nil => intro k i hi; cases hi
  | cons step rest ih =>
    intro k i hi hfail hpre
    cases i with
    | zero =>
      simp only [List.get] at hfail
      simp only [TestExecutor.runMain, Nat.add_zero] at hfail ⊢
      rw [hfail]
      rfl
    | succ n =>
      have h0 : execStep (k + 0) ((step :: rest).get ⟨0, by simp⟩) = true :=
        hpre 0 (Nat.succ_pos n) (by simp)
      simp only [List.get, Nat.add_zero] at h0
      simp only [TestExecutor.runMain, h0, if_true]
      have hrec := ih (k + 1) n (Nat.lt_of_succ_lt_succ hi)
        (by
          have : k + 1 + n = k + (n + 1) := by omega
          rw [this]
          exact hfail)
        (by
          intro j hj hj2
          have h1 : k + 1 + j = k + (j + 1) := by omega
          rw [h1]
          exact hpre (j + 1) (Nat.succ_lt_succ hj) (Nat.succ_lt_succ hj2))
      rw [hrec]
      rfl

/-- C7: scenario execution runs every background step (failures there are
tallied but never break the background loop), stops the main loop at the
first failing main step — the remaining main steps are not attempted — and
reports the scenario passed exactly when no step failed and no uncaught
error was recorded. -/
theorem scenario_failure_semantics (execStep : Nat → TestStep → Bool)
    (sc : TestScenario) :
    (∀ i (hi : i < sc.steps.length),
      execStep (sc.background_steps.length + i) (sc.steps.get ⟨i, hi⟩) = false →
      (∀ j, j < i → ∀ (hj : j < sc.steps.length),
        execStep (sc.background_steps.length + j) (sc.steps.get ⟨j, hj⟩) = true) →
      (TestExecutor.execute_scenario execStep sc).steps_executed =
          sc.background_steps.length + i + 1 ∧
      (TestExecutor.execute_scenario execStep sc).steps_failed =
          (TestExecutor.runBackground execStep 0 sc.background_steps).2.2.1 + 1 ∧
      (TestExecutor.execute_scenario execStep sc).failed_steps =
          (TestExecutor.runBackground execStep 0 sc.background_steps).2.2.2 ++
            [(sc.steps.get ⟨i, hi⟩).step_text]) ∧
    (TestExecutor.runBackground execStep 0 sc.background_steps).1 =
      sc.background_steps.length ∧
    ((TestExecutor.execute_scenario execStep sc).passed = true ↔
      (TestExecutor.execute_scenario execStep sc).steps_failed = 0 ∧
      (TestExecutor.execute_scenario execStep sc).error_message = Option.none) := by
  refine ⟨?_, runBackground_executes_all execStep 0 sc.background_steps, ?_⟩
  · intro i hi hfail hpre
    have hmain := runMain_stops_at_first_failure execStep sc.steps
      sc.background_steps.length i hi hfail hpre
    have hbg := runBackground_executes_all execStep 0 sc.background_steps
    simp only [TestExecutor.execute_scenario, hmain]
    exact ⟨by rw [hbg]; omega, trivial, trivial⟩
  · simp only [TestExecutor.execute_scenario]
    simp [Nat.beq_eq_true_eq]

/-- Witness for `scenario_failure_semantics` on the concrete scenario: the
background step fails but all three main steps would still be reachable; the
first main step passes, the second fails, so execution stops with the third
unattempted. -/
theorem scenario_failure_semantics_witness :
    (TestExecutor.execute_scenario execStepW scenarioW).steps_executed =
        scenarioW.background_steps.length + 1 + 1 ∧
    (TestExecutor.execute_scenario execStepW scenarioW).steps_failed =
        (TestExecutor.runBackground execStepW 0 scenarioW.background_steps).2.2.1
          + 1 ∧
    (TestExecutor.execute_scenario execStepW scenarioW).failed_steps =
        (TestExecutor.runBackground execStepW 0 scenarioW.background_steps).2.2.2
          ++ [(scenarioW.steps.get ⟨1, by decide⟩).step_text] :=
  (scenario_failure_semantics execStepW scenarioW).1 1 (by decide) (by decide)
    (by decide)
